import Mathlib

set_option maxRecDepth 10000

/-!
Shallow embedding of the reconciliation engine of pynetbox-initializers
(package nb_init): the name-template expander (name_template.py), the
attribute transform pipeline (transformations.py), the endpoint registries
(nb_endpoints.py, initializers.py), the YAML reconciler (initializers.py),
the API wrapper (api.py) and the older per-type initializer (initializer.py).
Definitions mirror the Python source; theorems settle the frozen claims.
-/

/-- Python attribute values as they occur in declared records and remote
objects: None, strings, integers and remote-object identifiers. -/
inductive Val where
  | vNone : Val
  | vStr : String → Val
  | vNat : Nat → Val
  | vId : Nat → Val
deriving DecidableEq

/-- A Python dict of record attributes, in insertion order. -/
abbrev Attrs := List (String × Val)

/-- `d.get(k)` on a Python dict: None when the key is absent. -/
def dget (d : Attrs) (k : String) : Val := (d.lookup k).getD Val.vNone

/-- `d.pop(k)` on a Python dict: the dict without the key. -/
def dictPop (k : String) (d : Attrs) : Attrs := d.filter (fun p => p.1 != k)

/-- `d[k] = v` on a Python dict: update in place when the key exists,
append at the end otherwise (insertion order semantics). -/
def dictSet (k : String) (v : Val) (d : Attrs) : Attrs :=
  if (d.lookup k).isSome then d.map (fun p => if p.1 = k then (k, v) else p)
  else d ++ [(k, v)]

/-- A remote object held by the inventory service: an id and its attributes. -/
structure NbObject where
  id : Nat
  attrs : Attrs
deriving DecidableEq

/-- The remote service state: objects tagged by their endpoint, plus the next
fresh identifier. -/
structure Remote where
  objs : List (String × NbObject)
  nextId : Nat
deriving DecidableEq

def Remote.empty : Remote := ⟨[], 0⟩

/-- `endpoint.get(field=v)`: the first object of the endpoint whose stored
attribute equals v, if any (consistent-remote model of the pynetbox get). -/
def lookupByAttr (st : Remote) (ep field : String) (v : Val) : Option NbObject :=
  (st.objs.find? (fun p => p.1 == ep && p.2.attrs.lookup field == some v)).map Prod.snd

/-- `endpoint.create(**attrs)`: append a fresh object to the endpoint. -/
def createObj (st : Remote) (ep : String) (attrs : Attrs) : Remote × NbObject :=
  let o : NbObject := ⟨st.nextId, attrs⟩
  (⟨st.objs ++ [(ep, o)], st.nextId + 1⟩, o)

/-- `endpoint.update(record)`: replace the stored object with the same id. -/
def updateObj (st : Remote) (ep : String) (o : NbObject) : Remote :=
  ⟨st.objs.map (fun p => if p.1 == ep && p.2.id == o.id then (ep, o) else p), st.nextId⟩

/-! ## name_template.py -/

/-- `int(s)` on a digit string. -/
def natOfDigits (ds : List Char) : Nat :=
  ds.foldl (fun n c => 10 * n + (c.toNat - '0'.toNat)) 0

/-- Match of the regex `\[([0-9]+)-([0-9]+)\]` at the head of the character
list: the two digit groups and the remainder after the closing bracket.
The character classes are disjoint from `-` and `]`, so greedy matching is
the maximal digit run and no backtracking arises. -/
def matchRangeAt : List Char → Option ((List Char × List Char) × List Char)
  | '[' :: cs =>
    let s1 := cs.span Char.isDigit
    if s1.1.isEmpty then none else
      match s1.2 with
      | '-' :: cs2 =>
        let s2 := cs2.span Char.isDigit
        if s2.1.isEmpty then none else
          match s2.2 with
          | ']' :: cs3 => some ((s1.1, s2.1), cs3)
          | _ => none
      | _ => none
  | _ => none

/-- Left-to-right non-overlapping scan for the range regex, producing at once
what `re.findall` returns (the pairs of digit groups, in order) and what
`re.split` returns (the static text before, between and after the matches).
The fuel argument is the input length; every step consumes at least one
character, so the zero-fuel default is reached only on the empty input, where
it agrees with the empty case. -/
def scanAux : Nat → List Char → List Char → List (List Char × List Char) × List (List Char)
  | 0, cs, acc => ([], [acc.reverse ++ cs])
  | _ + 1, [], acc => ([], [acc.reverse])
  | fuel + 1, c :: cs, acc =>
    match matchRangeAt (c :: cs) with
    | some (p, rest) =>
      let r := scanAux fuel rest []
      (p :: r.1, acc.reverse :: r.2)
    | none => scanAux fuel cs (c :: acc)

/-- The ranges (findall) and static parts (split) of a template. -/
def scanTemplate (cs : List Char) : List (List Char × List Char) × List (List Char) :=
  scanAux cs.length cs []

/-- `itertools.product` over lists of numbers: leftmost factor varies
slowest; any empty factor empties the whole product. -/
def pyProduct : List (List Nat) → List (List Nat)
  | [] => [[]]
  | xs :: rest => xs.flatMap (fun x => (pyProduct rest).map (fun t => x :: t))

/-- `list.index(a)`: position of the first occurrence of a. -/
def pyIndex (a : List Char × List Char) : List (List Char × List Char) → Nat
  | [] => 0
  | x :: xs => if x = a then 0 else pyIndex a xs + 1

/-- The name-assembly loop of expand_name_template: for each range pair, the
next static part (guarded by the running static index) followed by
`str(combination[ranges.index(pair)])`, then the remaining static part. -/
def buildLoop (allRanges : List (List Char × List Char)) (statics : List (List Char))
    (comb : List Nat) : List (List Char × List Char) → Nat → List (List Char)
  | [], i => if i < statics.length then [statics.getD i []] else []
  | pr :: rs, i =>
    let step := if i < statics.length then ([statics.getD i []], i + 1) else (([] : List (List Char)), i)
    step.1 ++ [(Nat.repr (comb.getD (pyIndex pr allRanges) 0)).data]
      ++ buildLoop allRanges statics comb rs step.2

/-- nb_init/name_template.py `expand_name_template`. -/
def expand_name_template (t : String) : List String :=
  let scanned := scanTemplate t.data
  if scanned.1.isEmpty then [t]
  else
    let rangeValues := scanned.1.map
      (fun p => List.range' (natOfDigits p.1) (natOfDigits p.2 + 1 - natOfDigits p.1))
    (pyProduct rangeValues).map
      (fun comb => String.mk (List.flatten (buildLoop scanned.1 scanned.2 comb scanned.1 0)))

/-! ## transformations.py -/

/-- The entity tags for which EntityTransformer defines a method
`transform_<tag>` (transformations.py). Note there is no
`transform_interface_templates` even though api.py calls it. -/
def transformerMethodTags : List String :=
  ["custom_fields", "cables", "custom_links", "tags", "config_templates", "webhooks",
   "tenant_groups", "tenants", "site_groups", "regions", "rirs", "asns", "sites",
   "locations", "rack_roles", "racks", "power_panels", "power_feeds", "manufacturers",
   "platforms", "device_roles", "device_types", "cluster_types", "cluster_groups",
   "clusters", "prefix_vlan_roles", "vlan_groups", "vlans", "devices", "interfaces",
   "route_targets", "vrfs", "aggregates", "virtual_machines", "virtualization_interfaces",
   "prefixes", "ip_addresses", "primary_ips", "services", "service_templates",
   "providers", "circuit_types", "circuits", "config_contexts", "contact_groups",
   "contact_roles", "contacts"]

/-- `transform_custom_fields`: rename the key `on_objects` to `object_types`
(pop first, then set); every other registered transform returns its input
unchanged. -/
def transform_custom_fields (d : Attrs) : Attrs :=
  match d.lookup "on_objects" with
  | some v => dictSet "object_types" v (dictPop "on_objects" d)
  | none => d

/-- Dispatch of the registered `transform_<tag>` method by tag. -/
def transformByTag (tag : String) (d : Attrs) : Attrs :=
  if tag = "custom_fields" then transform_custom_fields d else d

/-- `EntityTransformer.transform(entity_name, data)`: dispatch through
`hasattr(self, "transform_" + entity_name)`; returns Python None (here:
`none`) when no such method exists. -/
def EntityTransformer.transform (entity : String) (d : Attrs) : Option Attrs :=
  if entity ∈ transformerMethodTags then some (transformByTag entity d) else none

/-- `EntityTransformer.get_transformer(entity_name)`: the registered method
when present, else the fallback `transform_custom_fields`. -/
def EntityTransformer.get_transformer (entity : String) : Attrs → Attrs :=
  if entity ∈ transformerMethodTags then transformByTag entity
  else transform_custom_fields

/-! ## initializers.py (the YAML reconciler) -/

/-- The endpoint registry built by `NetboxInitializer._get_endpoint`
(initializers.py): entity tag to pynetbox endpoint path. -/
def initEndpointMap : List (String × String) :=
  [("custom_fields", "extras.custom_fields"),
   ("custom_links", "extras.custom_links"),
   ("tags", "extras.tags"),
   ("config_templates", "extras.config_templates"),
   ("webhooks", "extras.webhooks"),
   ("tenant_groups", "tenancy.tenant_groups"),
   ("tenants", "tenancy.tenants"),
   ("site_groups", "dcim.site_groups"),
   ("regions", "dcim.regions"),
   ("rirs", "ipam.rirs"),
   ("asns", "ipam.asns"),
   ("sites", "dcim.sites"),
   ("locations", "dcim.locations"),
   ("rack_roles", "dcim.rack_roles"),
   ("racks", "dcim.racks"),
   ("power_panels", "dcim.power_panels"),
   ("power_feeds", "dcim.power_feeds"),
   ("manufacturers", "dcim.manufacturers"),
   ("platforms", "dcim.platforms"),
   ("device_roles", "dcim.device_roles"),
   ("device_types", "dcim.device_types"),
   ("cluster_types", "virtualization.cluster_types"),
   ("cluster_groups", "virtualization.cluster_groups"),
   ("clusters", "virtualization.clusters"),
   ("prefix_vlan_roles", "ipam.prefix_vlan_roles"),
   ("vlan_groups", "ipam.vlan_groups"),
   ("vlans", "ipam.vlans"),
   ("devices", "dcim.devices"),
   ("interfaces", "dcim.interfaces"),
   ("route_targets", "ipam.route_targets"),
   ("vrfs", "ipam.vrfs"),
   ("aggregates", "ipam.aggregates"),
   ("virtual_machines", "virtualization.virtual_machines"),
   ("virtualization_interfaces", "virtualization.interfaces"),
   ("prefixes", "ipam.prefixes"),
   ("ip_addresses", "ipam.ip_addresses"),
   ("primary_ips", "ipam.primary_ips"),
   ("services", "ipam.services"),
   ("service_templates", "ipam.service_templates"),
   ("providers", "circuits.providers"),
   ("circuit_types", "circuits.circuit_types"),
   ("circuits", "circuits.circuits"),
   ("cables", "dcim.cables"),
   ("config_contexts", "extras.config_contexts"),
   ("contact_groups", "tenancy.contact_groups"),
   ("contact_roles", "tenancy.contact_roles"),
   ("contacts", "tenancy.contacts")]

/-- `NetboxInitializer._get_endpoint(entity_name)`: `endpoint_map.get(...)`,
absent for unknown tags. -/
def init_get_endpoint (entity : String) : Option String :=
  initEndpointMap.lookup entity

/-- `NetboxInitializer._create_item(endpoint, item_name, item_data)`: look the
item up by name; when found, skip; otherwise create it. The second component
counts create calls submitted to the endpoint (0 or 1). All exceptions are
caught inside the method; with a consistent remote none arise here. -/
def create_item (st : Remote) (ep : String) (itemName : Val) (itemData : Attrs) :
    Remote × Nat :=
  match lookupByAttr st ep "name" itemName with
  | some _ => (st, 0)
  | none => ((createObj st ep itemData).1, 1)

/-- One document of declared records: either a mapping from instance name to
attributes or a sequence of attribute mappings. -/
inductive DocData where
  | dict : List (String × Attrs) → DocData
  | list : List Attrs → DocData

/-- The dict branch of `_process_entity`: each item gets `name` injected from
its mapping key when absent, then `_create_item` runs with the key as lookup
name. Returns the final remote and the number of create calls. -/
def processDict (st : Remote) (ep : String) : List (String × Attrs) → Remote × Nat
  | [] => (st, 0)
  | (k, d) :: rest =>
    let d1 := if (d.lookup "name").isSome then d else d ++ [("name", Val.vStr k)]
    let r1 := create_item st ep (Val.vStr k) d1
    let r2 := processDict r1.1 ep rest
    (r2.1, r1.2 + r2.2)

/-- The list branch of `_process_entity`: items without a `name` key are
skipped with a warning; otherwise `_create_item` runs with that name. -/
def processList (st : Remote) (ep : String) : List Attrs → Remote × Nat
  | [] => (st, 0)
  | d :: rest =>
    match d.lookup "name" with
    | none => processList st ep rest
    | some nm =>
      let r1 := create_item st ep nm d
      let r2 := processList r1.1 ep rest
      (r2.1, r1.2 + r2.2)

/-- `NetboxInitializer._process_entity(entity_name, data)`: resolve the
endpoint (unknown tags return immediately with nothing created), then process
every declared record of the document. -/
def process_entity (st : Remote) (entity : String) (data : DocData) : Remote × Nat :=
  match init_get_endpoint entity with
  | none => (st, 0)
  | some ep =>
    match data with
    | .dict items => processDict st ep items
    | .list items => processList st ep items

/-- The dict-branch records all carry a usable name: each record either has no
explicit `name` attribute (the mapping key is injected) or its `name`
attribute equals its mapping key. List documents are unconstrained. -/
def goodDoc : DocData → Prop
  | .dict items => ∀ p ∈ items, p.2.lookup "name" = none ∨ p.2.lookup "name" = some (Val.vStr p.1)
  | .list _ => True

/-! ## nb_endpoints.py and api.py -/

/-- The endpoint registry of nb_endpoints.py `get_endpoint` (used by api.py).
It differs from initializers.py: `prefix_vlan_roles` maps to `ipam.roles` and
`interface_templates` is present. -/
def nbEndpointMap : List (String × String) :=
  [("custom_fields", "extras.custom_fields"),
   ("custom_links", "extras.custom_links"),
   ("tags", "extras.tags"),
   ("config_templates", "extras.config_templates"),
   ("webhooks", "extras.webhooks"),
   ("tenant_groups", "tenancy.tenant_groups"),
   ("tenants", "tenancy.tenants"),
   ("site_groups", "dcim.site_groups"),
   ("regions", "dcim.regions"),
   ("rirs", "ipam.rirs"),
   ("asns", "ipam.asns"),
   ("sites", "dcim.sites"),
   ("locations", "dcim.locations"),
   ("rack_roles", "dcim.rack_roles"),
   ("racks", "dcim.racks"),
   ("power_panels", "dcim.power_panels"),
   ("power_feeds", "dcim.power_feeds"),
   ("manufacturers", "dcim.manufacturers"),
   ("platforms", "dcim.platforms"),
   ("device_roles", "dcim.device_roles"),
   ("device_types", "dcim.device_types"),
   ("cluster_types", "virtualization.cluster_types"),
   ("cluster_groups", "virtualization.cluster_groups"),
   ("clusters", "virtualization.clusters"),
   ("prefix_vlan_roles", "ipam.roles"),
   ("vlan_groups", "ipam.vlan_groups"),
   ("vlans", "ipam.vlans"),
   ("devices", "dcim.devices"),
   ("interfaces", "dcim.interfaces"),
   ("route_targets", "ipam.route_targets"),
   ("vrfs", "ipam.vrfs"),
   ("aggregates", "ipam.aggregates"),
   ("virtual_machines", "virtualization.virtual_machines"),
   ("virtualization_interfaces", "virtualization.interfaces"),
   ("prefixes", "ipam.prefixes"),
   ("ip_addresses", "ipam.ip_addresses"),
   ("primary_ips", "ipam.primary_ips"),
   ("services", "ipam.services"),
   ("service_templates", "ipam.service_templates"),
   ("providers", "circuits.providers"),
   ("circuit_types", "circuits.circuit_types"),
   ("circuits", "circuits.circuits"),
   ("cables", "dcim.cables"),
   ("config_contexts", "extras.config_contexts"),
   ("contact_groups", "tenancy.contact_groups"),
   ("contact_roles", "tenancy.contact_roles"),
   ("contacts", "tenancy.contacts"),
   ("interface_templates", "dcim.interface_templates")]

/-- nb_endpoints.py `get_endpoint(api, entity_name)`. -/
def nb_get_endpoint (entity : String) : Option String :=
  nbEndpointMap.lookup entity

/-- State of a NetboxAPI instance: the remote plus the mutable
`self.primary_ips` deferral list of `{ip4, device}` pairs. -/
structure ApiState where
  remote : Remote
  primary_ips : List (Val × Val)
deriving DecidableEq

def ApiState.empty : ApiState := ⟨Remote.empty, []⟩

/-- `NetboxAPI._look_primary_ip_address(ip_address)`: first queued pair whose
`ip4` equals the address, if any. -/
def look_primary_ip_address (st : ApiState) (addr : Val) : Option (Val × Val) :=
  st.primary_ips.find? (fun pr => addr == pr.1)

/-- `NetboxAPI._get_first_by_name(entity_name, name)`: resolve the endpoint
through nb_endpoints.py (None when absent), then `endpoint.get(name=...)`. -/
def get_first_by_name (st : Remote) (entity : String) (nm : Val) : Option NbObject :=
  match nb_get_endpoint entity with
  | none => none
  | some ep => lookupByAttr st ep "name" nm

/-- `NetboxAPI.get_device(name)`: `api.dcim.devices.get(name=name)`. -/
def get_device (st : Remote) (nm : Val) : Option NbObject :=
  lookupByAttr st "dcim.devices" "name" nm

/-- `NetboxAPI.get_interface(name, device)`: filter interfaces by name and
device and return the one whose name matches. -/
def get_interface (st : Remote) (nm dev : Val) : Option NbObject :=
  (st.objs.find? (fun p =>
    p.1 == "dcim.interfaces" && p.2.attrs.lookup "name" == some nm
      && p.2.attrs.lookup "device" == some dev)).map Prod.snd

/-- The reference fields `create_device` iterates over, in order. -/
def devicePropertyList : List String :=
  ["device_type", "role", "site", "location", "rack", "config_template", "primary_ip4"]

/-- The property loop of `NetboxAPI.create_device`: `primary_ip4` is removed
and enqueued as `{ip4, device-name}`; every other present property is
resolved by name through `_get_first_by_name(property + "s")`, a failed
resolution aborting with None (the `primary_ips` mutations made so far
persist, as in the Python instance state). -/
def create_device_loop (st : ApiState) (d : Attrs) :
    List String → ApiState × Option Attrs
  | [] => (st, some d)
  | p :: rest =>
    if (d.lookup p).isSome then
      if p = "primary_ip4" then
        let st1 : ApiState :=
          { st with primary_ips := st.primary_ips ++ [(dget d "primary_ip4", dget d "name")] }
        create_device_loop st1 (dictPop "primary_ip4" d) rest
      else
        match get_first_by_name st.remote (p ++ "s") (dget d p) with
        | none => (st, none)
        | some o => create_device_loop st (dictSet p (Val.vId o.id) d) rest
    else create_device_loop st d rest

/-- `NetboxAPI.create_device(device_data)`: identity transform, the property
loop, then `api.dcim.devices.create(**transformed_data)`. -/
def create_device (st : ApiState) (device_data : Attrs) : ApiState × Option NbObject :=
  match create_device_loop st device_data devicePropertyList with
  | (st1, none) => (st1, none)
  | (st1, some d1) =>
    let c := createObj st1.remote "dcim.devices" d1
    ({ st1 with remote := c.1 }, some c.2)

/-- The device-resolution step of `NetboxAPI.create_ip_addresses`: when the
data names a device, it must exist remotely (else the whole call returns
None) and the key is popped. Result: (resolved device if any, new data). -/
def ipResolveDevice (st : ApiState) (d : Attrs) : Option (Option NbObject × Attrs) :=
  if (d.lookup "device").isSome then
    match get_device st.remote (dget d "device") with
    | none => none
    | some dev => some (some dev, dictPop "device" d)
  else some (none, d)

/-- The interface-resolution step of `create_ip_addresses`: with a resolved
device and an `interface` key, the interface must exist on that device; the
key is replaced by `assigned_object_id`. (On a missing interface the Python
code hits a KeyError in its log call, but the caller-visible outcome is the
same None return.) -/
def ipResolveInterface (st : ApiState) (dev? : Option NbObject) (d : Attrs) :
    Option Attrs :=
  match dev? with
  | some dev =>
    if (d.lookup "interface").isSome then
      match get_interface st.remote (dget d "interface") (dget dev.attrs "name") with
      | none => none
      | some intf =>
        some (dictSet "assigned_object_id" (Val.vId intf.id) (dictPop "interface" d))
    else some d
  | none => some d

/-- The VRF-resolution step of `create_ip_addresses`. -/
def ipResolveVrf (st : ApiState) (d : Attrs) : Option Attrs :=
  if (d.lookup "vrf").isSome then
    match get_first_by_name st.remote "vrfs" (dget d "vrf") with
    | none => none
    | some v => some (dictSet "vrf" (Val.vId v.id) d)
  else some d

/-- `NetboxAPI.create_ip_addresses(ip_data)`: identity transform, resolve
device, interface and VRF (each failure returning None), create the address,
then drain the primary-ip queue: if the created address matches a queued pair
whose device name equals the resolved device's name, set that device's
`primary_ip4` to the new address id and update it remotely. -/
def create_ip_addresses (st : ApiState) (ip_data : Attrs) : ApiState × Option NbObject :=
  match ipResolveDevice st ip_data with
  | none => (st, none)
  | some (dev?, d1) =>
    match ipResolveInterface st dev? d1 with
    | none => (st, none)
    | some d2 =>
      match ipResolveVrf st d2 with
      | none => (st, none)
      | some d3 =>
        let c := createObj st.remote "ipam.ip_addresses" d3
        let st1 : ApiState := { st with remote := c.1 }
        match d3.lookup "address" with
        | none => (st1, none)
        | some addr =>
          match look_primary_ip_address st1 addr with
          | none => (st1, some c.2)
          | some pr =>
            match dev? with
            | none => (st1, some c.2)
            | some dev =>
              match dev.attrs.lookup "name" with
              | none => (st1, none)
              | some dn =>
                if dn = pr.2 then
                  let devUpd : NbObject :=
                    { dev with attrs := dictSet "primary_ip4" (Val.vId c.2.id) dev.attrs }
                  ({ st1 with remote := updateObj st1.remote "dcim.devices" devUpd },
                    some c.2)
                else (st1, some c.2)

/-- `NetboxAPI.create_vlan(vlan_data)`: identity transform, then
`api.ipam.vlans.create(**transformed_data)`; always succeeds against a
consistent remote. -/
def create_vlan (st : Remote) (vlan_data : Attrs) : Remote × Option NbObject :=
  let c := createObj st "ipam.vlans" vlan_data
  (c.1, some c.2)

/-! ## Python exception semantics for api.py get_or_create and initializer.py -/

/-- Python exceptions (Exception subclasses) relevant to the embedded code. -/
inductive PyExc where
  | attributeError : PyExc
  | requestError : String → PyExc
  | otherError : String → PyExc
deriving DecidableEq

/-- The outcome of a Python call: a value or a raised exception. -/
inductive PyResult (α : Type) where
  | ok : α → PyResult α
  | exc : PyExc → PyResult α
deriving DecidableEq

/-- The attributes a NetboxAPI instance has (api.py): its three data
attributes and every method it defines. In particular `get_device_types`
exists but `get_device_type` does not. -/
def netboxAPIMethods : List String :=
  ["connection", "api", "transformer", "primary_ips",
   "_look_primary_ip_address", "get_device_types", "get_device_role", "get_site",
   "get_device", "get_interface", "get_ip_addresses", "get_prefixes",
   "_get_first_by_name", "get_or_create", "create_device", "create_device_type",
   "create_interface_templates", "create_ip_addresses", "create_vlan",
   "create_prefix", "create_vlan_group", "create_prefix_vlan_role",
   "create_cluster_type", "create_cluster_group", "create_cluster",
   "create_virtual_machine", "create_virtualization_interface", "create_asn",
   "create_rir", "create_region", "create_site_group", "create_tenant",
   "create_tenant_group", "create_webhook", "create_config_template",
   "create_custom_field", "create_custom_link", "create_cable", "create_tag"]

/-- `hasattr(self, nm)` on a NetboxAPI instance. -/
def hasattrAPI (nm : String) : Bool := netboxAPIMethods.contains nm

/-- The singularization heuristic of get_or_create: strip a trailing "s",
then strip the first matching suffix of the fixed list (the for-break). -/
def singularize (entity_type : String) : String :=
  let s := if entity_type.endsWith "s" then entity_type.dropRight 1 else entity_type
  if s.endsWith "_types" then s.dropRight 6
  else if s.endsWith "_groups" then s.dropRight 7
  else if s.endsWith "_roles" then s.dropRight 6
  else if s.endsWith "_feeds" then s.dropRight 6
  else if s.endsWith "_types_" then s.dropRight 7
  else if s.endsWith "_groups_" then s.dropRight 8
  else if s.endsWith "_roles_" then s.dropRight 7
  else if s.endsWith "_feeds_" then s.dropRight 7
  else s

/-- The lookup method name get_or_create computes. -/
def lookupMethodName (entity_type : String) : String :=
  if hasattrAPI ("get_" ++ entity_type) then "get_" ++ entity_type
  else "get_" ++ singularize entity_type

/-- The create method name get_or_create computes. -/
def createMethodName (entity_type : String) : String :=
  if hasattrAPI ("create_" ++ entity_type) then "create_" ++ entity_type
  else "create_" ++ singularize entity_type

/-- `needle in hay` on Python strings. -/
def strContains (hay needle : String) : Bool := (hay.splitOn needle).length != 1

/-- The calls get_or_create makes that reach the remote service. They are
parameters of the embedding because each may return a value or raise any
exception, depending on the remote: `lookupCall1`/`lookupCall2` are the
dispatched `getattr(self, method_name)(name[, data["device"]])`,
`genericLookup` is the `_get_first_by_name` retry, and `createCall` is the
dispatched create with the transformed data (Python None when the transform
returned None). -/
structure RemoteCalls where
  lookupCall1 : String → Val → PyResult (Option NbObject)
  lookupCall2 : String → Val → Val → PyResult (Option NbObject)
  genericLookup : String → Val → PyResult (Option NbObject)
  createCall : String → Option Attrs → PyResult (Option NbObject)

/-- The body of `NetboxAPI.get_or_create` inside its outer try: compute the
lookup method name (AttributeError from a missing attribute is caught by the
inner handler, which retries with the generic lookup; a RequestError whose
text contains "Not Found" falls through to creation; other exceptions
propagate), return a found entity, otherwise transform the data and dispatch
the create method (a missing create method raises AttributeError here,
outside the inner try). -/
def get_or_create_body (rc : RemoteCalls) (entity_type : String) (nm : Val)
    (data : Attrs) : PyResult (Option NbObject) :=
  let method_name := lookupMethodName entity_type
  let lookupResult : PyResult (Option NbObject) :=
    if hasattrAPI method_name then
      if (data.lookup "device").isSome then rc.lookupCall2 method_name nm (dget data "device")
      else rc.lookupCall1 method_name nm
    else .exc .attributeError
  let afterLookup : PyResult (Option NbObject) :=
    match lookupResult with
    | .ok r => .ok r
    | .exc .attributeError => rc.genericLookup entity_type nm
    | .exc (.requestError m) =>
      if strContains m "Not Found" then .ok none else .exc (.requestError m)
    | .exc e => .exc e
  match afterLookup with
  | .exc e => .exc e
  | .ok (some entity) => .ok (some entity)
  | .ok none =>
    let create_method_name := createMethodName entity_type
    let transformed := EntityTransformer.transform entity_type data
    if hasattrAPI create_method_name then rc.createCall create_method_name transformed
    else .exc .attributeError

/-- `NetboxAPI.get_or_create(entity_type, name, data)` as the caller sees it:
the body wrapped in `except pynetbox.RequestError` and `except Exception`,
both of which log and return None. -/
def get_or_create (rc : RemoteCalls) (entity_type : String) (nm : Val)
    (data : Attrs) : PyResult (Option NbObject) :=
  match get_or_create_body rc entity_type nm data with
  | .ok r => .ok r
  | .exc _ => .ok none

/-! ## initializer.py (the older per-type initializer) -/

/-- Dispatch of a single-argument lookup call `self.api.<name>(value)` as
initializer.py performs it: an attribute absent from NetboxAPI raises
AttributeError; the lookup methods its device and VLAN paths name are
modelled by their api.py bodies. (Other NetboxAPI methods are never invoked
through this dispatcher by the embedded code.) -/
def apiLookupMethod (st : Remote) (nm : String) (v : Val) : PyResult (Option NbObject) :=
  if ¬ hasattrAPI nm then .exc .attributeError
  else if nm = "get_device_role" then .ok (lookupByAttr st "dcim.device_roles" "name" v)
  else if nm = "get_site" then .ok (get_first_by_name st "sites" v)
  else if nm = "get_device" then .ok (get_device st v)
  else if nm = "get_device_types" then .ok (lookupByAttr st "dcim.device_types" "model" v)
  else .ok none

/-- `NetboxInitializer._create_device_with_references(device_data)`
(initializer.py): resolve the device type via `self.api.get_device_type`
(an attribute NetboxAPI does not define), then the role and site, log and
return None when a resolution yields None, build the payload with the
optional fields and call `api.create_device`. -/
def create_device_with_references (st : ApiState) (dd : Attrs) :
    PyResult (ApiState × Option NbObject) :=
  match apiLookupMethod st.remote "get_device_type" (dget dd "device_type") with
  | .exc e => .exc e
  | .ok none => .ok (st, none)
  | .ok (some device_type) =>
    match apiLookupMethod st.remote "get_device_role" (dget dd "device_role") with
    | .exc e => .exc e
    | .ok none => .ok (st, none)
    | .ok (some device_role) =>
      match apiLookupMethod st.remote "get_site" (dget dd "site") with
      | .exc e => .exc e
      | .ok none => .ok (st, none)
      | .ok (some site) =>
        let payload0 : Attrs :=
          [("name", dget dd "name"), ("device_type", Val.vId device_type.id),
           ("device_role", Val.vId device_role.id), ("site", Val.vId site.id)]
        let payload1 := match dd.lookup "serial" with
          | some v => payload0 ++ [("serial", v)]
          | none => payload0
        let payload2 := match dd.lookup "asset_tag" with
          | some v => payload1 ++ [("asset_tag", v)]
          | none => payload1
        let payload3 := match dd.lookup "description" with
          | some v => payload2 ++ [("description", v)]
          | none => payload2
        .ok (create_device st payload3)

/-- `NetboxInitializer.initialize_devices(devices)` (initializer.py): process
each device record in turn, collecting the non-None results; the loop has no
exception handler, so a raised exception aborts the remaining records. -/
def initialize_devices (st : ApiState) : List Attrs → PyResult (ApiState × List NbObject)
  | [] => .ok (st, [])
  | d :: rest =>
    match create_device_with_references st d with
    | .exc e => .exc e
    | .ok (st1, o?) =>
      match initialize_devices st1 rest with
      | .exc e => .exc e
      | .ok (st2, objs) =>
        .ok (st2, (match o? with | some o => [o] | none => []) ++ objs)

/-- `NetboxInitializer._create_vlan_with_references(vlan_data)`
(initializer.py): build the payload from vid and name, attach the site id
when the named site resolves (a missing site merely omits the field), copy
description and tenant, and call `api.create_vlan`. -/
def create_vlan_with_references (st : ApiState) (vd : Attrs) : ApiState × Option NbObject :=
  let p0 : Attrs := [("vid", dget vd "vid"), ("name", dget vd "name")]
  let p1 := match vd.lookup "site" with
    | some sv =>
      match get_first_by_name st.remote "sites" sv with
      | some site => p0 ++ [("site", Val.vId site.id)]
      | none => p0
    | none => p0
  let p2 := match vd.lookup "description" with
    | some v => p1 ++ [("description", v)]
    | none => p1
  let p3 := match vd.lookup "tenant" with
    | some v => p2 ++ [("tenant", v)]
    | none => p2
  let r := create_vlan st.remote p3
  ({ st with remote := r.1 }, r.2)

/-- The loop of `NetboxInitializer.initialize_vlans(vlans)` (initializer.py),
as written: on the first successful creation the accumulated list is
returned from inside the loop; if the loop finishes without a success the
function falls off its end and returns Python None. -/
def initVlansLoop (st : ApiState) (acc : List NbObject) :
    List Attrs → ApiState × Option (List NbObject)
  | [] => (st, none)
  | vd :: rest =>
    match create_vlan_with_references st vd with
    | (st1, some o) => (st1, some (acc ++ [o]))
    | (st1, none) => initVlansLoop st1 acc rest

/-- `NetboxInitializer.initialize_vlans(vlans)` (initializer.py). -/
def initialize_vlans (st : ApiState) (vlans : List Attrs) :
    ApiState × Option (List NbObject) :=
  initVlansLoop st [] vlans


/-! ## Helper lemmas -/

theorem sum_map_const {α : Type} (xs : List α) (n : Nat) :
    (xs.map (fun _ => n)).sum = xs.length * n := by
  induction xs with
  | nil => simp
  | cons y ys ih => simp [ih, Nat.succ_mul, Nat.add_comm]

theorem pyProduct_length (ls : List (List Nat)) :
    (pyProduct ls).length = (ls.map List.length).prod := by
  induction ls with
  | nil => simp [pyProduct]
  | cons xs rest ih =>
    simp only [pyProduct, List.length_flatMap, List.map_map, Function.comp_def,
      List.length_map, List.map_cons, List.prod_cons]
    rw [sum_map_const, ih]

theorem find?_append_left {α : Type} {p : α → Bool} {l1 l2 : List α} {a : α}
    (h : l1.find? p = some a) : (l1 ++ l2).find? p = some a := by
  rw [List.find?_append, h]
  rfl

theorem find?_append_right {α : Type} {p : α → Bool} {l1 l2 : List α}
    (h : l1.find? p = none) : (l1 ++ l2).find? p = l2.find? p := by
  rw [List.find?_append, h]
  rfl

theorem lookup_append_of_none {l1 l2 : Attrs} {k : String}
    (h : l1.lookup k = none) : (l1 ++ l2).lookup k = l2.lookup k := by
  induction l1 with
  | nil => rfl
  | cons q rest ih =>
    rw [List.cons_append]
    cases hq : (k == q.1) with
    | true =>
      exfalso
      simp only [List.lookup, hq] at h
      exact Option.noConfusion h
    | false =>
      simp only [List.lookup, hq] at h ⊢
      exact ih h

/-! ## Name-template theorems -/

example : expand_name_template "GigabitEthernet0/1" = ["GigabitEthernet0/1"] := by decide

example : expand_name_template "Ethernet27/[1-4]"
    = ["Ethernet27/1", "Ethernet27/2", "Ethernet27/3", "Ethernet27/4"] := by decide

/-- C10: for every input string, the expansion's length is the product over
all parsed ranges of the clipped size of the range (Nat truncated subtraction
encodes max(0, b - a + 1)); for a string with no range the list is the
singleton input, so its length is the empty product 1. -/
theorem expand_name_template_length (s : String) :
    (expand_name_template s).length
      = ((scanTemplate s.data).1.map
          (fun p => natOfDigits p.2 + 1 - natOfDigits p.1)).prod := by
  by_cases h : (scanTemplate s.data).1.isEmpty
  · rw [List.isEmpty_iff] at h
    simp [expand_name_template, h]
  · simp only [expand_name_template, h, if_neg, Bool.false_eq_true, not_false_iff,
      List.length_map, pyProduct_length, List.map_map, Function.comp_def,
      List.length_range', if_false]

/-- C8: any bracketed range `[a-b]` with a > b makes its factor empty, so the
template yields no expansions at all — an empty list, not an error (the
expander is a total function). -/
theorem expand_name_template_empty_of_reversed_range (t : String)
    (p : List Char × List Char) (hp : p ∈ (scanTemplate t.data).1)
    (hba : natOfDigits p.2 < natOfDigits p.1) :
    expand_name_template t = [] := by
  have hlen := expand_name_template_length t
  have hz : natOfDigits p.2 + 1 - natOfDigits p.1 = 0 := Nat.sub_eq_zero_of_le hba
  have hmem : (0 : Nat) ∈ (scanTemplate t.data).1.map
      (fun q => natOfDigits q.2 + 1 - natOfDigits q.1) := by
    rw [← hz]
    exact List.mem_map_of_mem _ hp
  rw [List.prod_eq_zero hmem] at hlen
  exact List.length_eq_zero.mp hlen

/-- Witness for C8 at the template "Eth[5-3]". -/
theorem expand_name_template_empty_of_reversed_range_witness :
    expand_name_template "Eth[5-3]" = [] :=
  expand_name_template_empty_of_reversed_range "Eth[5-3]" (⟨['5'], ['3']⟩)
    (by decide) (by decide)

/-- C1: the code computes each substituted value as
`combination[ranges.index(pair)]`, the index of the FIRST range equal to the
pair, so a template whose two ranges are equal substitutes the first
combination component in both positions: `expand("Ethernet[1-2]/[1-2]")`
yields `["Ethernet1/1", "Ethernet1/1", "Ethernet2/2", "Ethernet2/2"]` and not
the Cartesian-product expansion the specification states. -/
theorem expand_name_template_duplicate_ranges_collapse :
    expand_name_template "Ethernet[1-2]/[1-2]"
      = ["Ethernet1/1", "Ethernet1/1", "Ethernet2/2", "Ethernet2/2"] ∧
    expand_name_template "Ethernet[1-2]/[1-2]"
      ≠ ["Ethernet1/1", "Ethernet1/2", "Ethernet2/1", "Ethernet2/2"] := by
  decide

/-! ## Transform pipeline theorems -/

/-- C4 counterexample: for the tag "widgets", which has no registered
transform, `EntityTransformer.transform` returns Python None — not the raw
record unchanged as the claim states. -/
theorem transform_without_method_returns_none :
    EntityTransformer.transform "widgets" [("a", Val.vStr "x")] = none ∧
    EntityTransformer.transform "widgets" [("a", Val.vStr "x")]
      ≠ some [("a", Val.vStr "x")] := by
  decide

/-- C4 amended: for every entity tag with no registered `transform_<tag>`
method, `EntityTransformer.transform` returns None (nothing) rather than the
record, and `EntityTransformer.get_transformer` falls back to the
custom-fields transform rather than the identity. -/
theorem transform_unregistered_tag (entity : String) (d : Attrs)
    (h : entity ∉ transformerMethodTags) :
    EntityTransformer.transform entity d = none ∧
    EntityTransformer.get_transformer entity d = transform_custom_fields d := by
  unfold EntityTransformer.transform EntityTransformer.get_transformer
  rw [if_neg h, if_neg h]
  exact ⟨rfl, rfl⟩

/-- Witness for the amended C4 at the repository's own unregistered tag
"interface_templates". -/
theorem transform_unregistered_tag_witness :
    EntityTransformer.transform "interface_templates" [("name", Val.vStr "Ethernet1")] = none ∧
    EntityTransformer.get_transformer "interface_templates" [("name", Val.vStr "Ethernet1")]
      = transform_custom_fields [("name", Val.vStr "Ethernet1")] :=
  transform_unregistered_tag "interface_templates" [("name", Val.vStr "Ethernet1")]
    (by decide)

/-! ## Endpoint registry theorems -/

/-- C7: for every entity tag absent from the endpoint registry of
initializers.py, `_process_entity` returns at once: the remote state is
unchanged (zero objects created) and zero create calls are submitted — a
skip, not a fatal error. -/
theorem process_entity_unknown_tag_skips (entity : String) (st : Remote)
    (data : DocData) (h : init_get_endpoint entity = none) :
    process_entity st entity data = (st, 0) := by
  unfold process_entity
  rw [h]

/-- Witness for C7 at the tag "widgets" with a nonempty document. -/
theorem process_entity_unknown_tag_skips_witness :
    process_entity Remote.empty "widgets"
      (DocData.dict [("w1", [("name", Val.vStr "w1")])]) = (Remote.empty, 0) :=
  process_entity_unknown_tag_skips "widgets" Remote.empty
    (DocData.dict [("w1", [("name", Val.vStr "w1")])]) (by decide)

/-! ## get_or_create theorems -/

/-- C9: `NetboxAPI.get_or_create` never lets an exception escape: whatever
the underlying lookup, transform and create calls do (any Exception raised
anywhere in the body, including the dynamic-dispatch AttributeError cases),
the caller always receives an ordinary return value, a record or None. -/
theorem get_or_create_never_raises (rc : RemoteCalls) (entity_type : String)
    (nm : Val) (data : Attrs) :
    ∃ r : Option NbObject, get_or_create rc entity_type nm data = PyResult.ok r := by
  unfold get_or_create
  cases get_or_create_body rc entity_type nm data with
  | ok r => exact ⟨r, rfl⟩
  | exc e => exact ⟨none, rfl⟩

/-! ## initializer.py theorems -/

/-- C3: `initialize_vlans`, given two VLAN records that both create
successfully, returns from inside the loop right after the first successful
creation: the final remote holds exactly one VLAN object and the returned
list has one element — the second declared record is never submitted. -/
theorem initialize_vlans_returns_after_first_success :
    initialize_vlans ApiState.empty
      [[("vid", Val.vNat 10), ("name", Val.vStr "voice")],
       [("vid", Val.vNat 20), ("name", Val.vStr "data")]]
    = (⟨⟨[("ipam.vlans", ⟨0, [("vid", Val.vNat 10), ("name", Val.vStr "voice")]⟩)], 1⟩, []⟩,
       some [⟨0, [("vid", Val.vNat 10), ("name", Val.vStr "voice")]⟩]) := by
  decide

/-- C6: `initialize_devices` on two well-formed device records raises
AttributeError out of the whole loop — `self.api.get_device_type` names an
attribute NetboxAPI does not define — so the failure of the first record is
not contained to that record: the sibling record is never processed and the
error propagates past the record boundary to the caller. -/
theorem initialize_devices_attribute_error_aborts_run :
    initialize_devices ApiState.empty
      [[("name", Val.vStr "R1"), ("device_type", Val.vStr "X"),
        ("device_role", Val.vStr "router"), ("site", Val.vStr "S")],
       [("name", Val.vStr "R2"), ("device_type", Val.vStr "X"),
        ("device_role", Val.vStr "router"), ("site", Val.vStr "S")]]
    = PyResult.exc PyExc.attributeError := by
  decide

/-! ## Primary-address two-phase theorems -/

/-- C5 counterexample: the end state depends on the order of the two
declarations. Declaring device R1 (primary address 10.0.0.1/32) and then the
address leaves R1 with `primary_ip4` set to the new address id 1; declaring
the address first fails its device lookup (nothing is created), so the later
device creation enqueues the pair but nothing ever drains it and R1 ends
without a primary address. -/
theorem primary_address_order_dependent :
    ((lookupByAttr (create_ip_addresses (create_device ApiState.empty
          [("name", Val.vStr "R1"), ("primary_ip4", Val.vStr "10.0.0.1/32")]).1
          [("address", Val.vStr "10.0.0.1/32"), ("device", Val.vStr "R1")]).1.remote
        "dcim.devices" "name" (Val.vStr "R1")).map
      (fun o => o.attrs.lookup "primary_ip4") = some (some (Val.vId 1))) ∧
    ((lookupByAttr (create_device (create_ip_addresses ApiState.empty
          [("address", Val.vStr "10.0.0.1/32"), ("device", Val.vStr "R1")]).1
          [("name", Val.vStr "R1"), ("primary_ip4", Val.vStr "10.0.0.1/32")]).1.remote
        "dcim.devices" "name" (Val.vStr "R1")).map
      (fun o => o.attrs.lookup "primary_ip4") = some none) ∧
    (create_ip_addresses (create_device ApiState.empty
          [("name", Val.vStr "R1"), ("primary_ip4", Val.vStr "10.0.0.1/32")]).1
          [("address", Val.vStr "10.0.0.1/32"), ("device", Val.vStr "R1")]).1
      ≠ (create_device (create_ip_addresses ApiState.empty
          [("address", Val.vStr "10.0.0.1/32"), ("device", Val.vStr "R1")]).1
          [("name", Val.vStr "R1"), ("primary_ip4", Val.vStr "10.0.0.1/32")]).1 := by
  decide

/-- C5 amended: for every device name and address value, when the device
record declaring the primary address is processed before its address record,
the field is removed from the device payload and the pair is enqueued, and
the later address creation finds the queued pair and updates the device's
remote record with the new address's id — but this end state is reached only
in that order, not regardless of order. -/
theorem primary_address_two_phase_device_first (dn a : String) :
    create_ip_addresses (create_device ApiState.empty
        [("name", Val.vStr dn), ("primary_ip4", Val.vStr a)]).1
      [("address", Val.vStr a), ("device", Val.vStr dn)]
    = (⟨⟨[("dcim.devices", ⟨0, [("name", Val.vStr dn), ("primary_ip4", Val.vId 1)]⟩),
          ("ipam.ip_addresses", ⟨1, [("address", Val.vStr a)]⟩)], 2⟩,
        [(Val.vStr a, Val.vStr dn)]⟩,
       some ⟨1, [("address", Val.vStr a)]⟩) := by
  simp [create_device, create_device_loop, devicePropertyList, createObj, dget, dictPop, dictSet,
    create_ip_addresses, ipResolveDevice, ipResolveInterface, ipResolveVrf, get_device,
    lookupByAttr, look_primary_ip_address, updateObj, get_first_by_name, nb_get_endpoint,
    nbEndpointMap, List.lookup, List.find?, List.filter, ApiState.empty, Remote.empty]

/-! ## Reconciler idempotence -/

theorem create_item_objs (st : Remote) (ep : String) (nm : Val) (d : Attrs) :
    ∃ tail, (create_item st ep nm d).1.objs = st.objs ++ tail := by
  unfold create_item
  cases h : lookupByAttr st ep "name" nm with
  | some o => exact ⟨[], by simp⟩
  | none => exact ⟨[(ep, ⟨st.nextId, d⟩)], rfl⟩

theorem lookupByAttr_mono {st st' : Remote} {ep field : String} {v : Val}
    (hext : ∃ tail, st'.objs = st.objs ++ tail)
    (h : (lookupByAttr st ep field v).isSome = true) :
    (lookupByAttr st' ep field v).isSome = true := by
  obtain ⟨tail, ht⟩ := hext
  simp only [lookupByAttr] at h ⊢
  rw [ht]
  cases hf : st.objs.find? (fun p => p.1 == ep && p.2.attrs.lookup field == some v) with
  | none => rw [hf] at h; simp at h
  | some x => rw [find?_append_left hf]; rfl

theorem create_item_present {st : Remote} {ep : String} {nm : Val} {d : Attrs}
    (h : d.lookup "name" = some nm) :
    (lookupByAttr (create_item st ep nm d).1 ep "name" nm).isSome = true := by
  unfold create_item
  cases hl : lookupByAttr st ep "name" nm with
  | some o => simp [hl]
  | none =>
    have hf : st.objs.find? (fun p => p.1 == ep && p.2.attrs.lookup "name" == some nm)
        = none := by
      unfold lookupByAttr at hl
      exact Option.map_eq_none'.mp hl
    simp only [lookupByAttr, createObj]
    rw [find?_append_right hf]
    simp [List.find?, h]

theorem injected_name_lookup {k : String} {d : Attrs}
    (hg : d.lookup "name" = none ∨ d.lookup "name" = some (Val.vStr k)) :
    (if (d.lookup "name").isSome then d else d ++ [("name", Val.vStr k)]).lookup "name"
      = some (Val.vStr k) := by
  cases hg with
  | inl h => rw [if_neg (by simp [h]), lookup_append_of_none h]; rfl
  | inr h => rw [if_pos (by simp [h])]; exact h

theorem processDict_cons (st : Remote) (ep k : String) (d : Attrs)
    (rest : List (String × Attrs)) :
    processDict st ep ((k, d) :: rest)
      = ((processDict (create_item st ep (Val.vStr k)
            (if (d.lookup "name").isSome then d else d ++ [("name", Val.vStr k)])).1
           ep rest).1,
         (create_item st ep (Val.vStr k)
            (if (d.lookup "name").isSome then d else d ++ [("name", Val.vStr k)])).2
           + (processDict (create_item st ep (Val.vStr k)
            (if (d.lookup "name").isSome then d else d ++ [("name", Val.vStr k)])).1
           ep rest).2) := rfl

theorem processDict_objs (ep : String) (items : List (String × Attrs)) :
    ∀ st : Remote, ∃ tail, (processDict st ep items).1.objs = st.objs ++ tail := by
  induction items with
  | nil => intro st; exact ⟨[], by simp [processDict]⟩
  | cons q rest ih =>
    intro st
    obtain ⟨k, d⟩ := q
    obtain ⟨t1, h1⟩ := create_item_objs st ep (Val.vStr k)
      (if (d.lookup "name").isSome then d else d ++ [("name", Val.vStr k)])
    obtain ⟨t2, h2⟩ := ih (create_item st ep (Val.vStr k)
      (if (d.lookup "name").isSome then d else d ++ [("name", Val.vStr k)])).1
    refine ⟨t1 ++ t2, ?_⟩
    rw [processDict_cons]
    dsimp only
    rw [h2, h1, List.append_assoc]

theorem processDict_present (ep : String) (items : List (String × Attrs)) :
    ∀ st : Remote,
      (∀ p ∈ items, p.2.lookup "name" = none ∨ p.2.lookup "name" = some (Val.vStr p.1)) →
      ∀ p ∈ items,
        (lookupByAttr (processDict st ep items).1 ep "name" (Val.vStr p.1)).isSome = true := by
  induction items with
  | nil => intro st _ p hp; cases hp
  | cons q rest ih =>
    intro st hg p hp
    obtain ⟨k, d⟩ := q
    cases hp with
    | head =>
      rw [processDict_cons]
      dsimp only
      refine lookupByAttr_mono (processDict_objs ep rest _) ?_
      exact create_item_present (injected_name_lookup (hg (k, d) (List.mem_cons_self _ _)))
    | tail _ hmem =>
      rw [processDict_cons]
      dsimp only
      exact ih _ (fun q hq => hg q (List.mem_cons_of_mem _ hq)) p hmem

theorem processDict_noop (ep : String) (items : List (String × Attrs)) :
    ∀ st : Remote,
      (∀ p ∈ items, (lookupByAttr st ep "name" (Val.vStr p.1)).isSome = true) →
      processDict st ep items = (st, 0) := by
  induction items with
  | nil => intro st _; rfl
  | cons q rest ih =>
    intro st h
    obtain ⟨k, d⟩ := q
    obtain ⟨o, ho⟩ := Option.isSome_iff_exists.mp (h (k, d) (List.mem_cons_self _ _))
    have hci : create_item st ep (Val.vStr k)
        (if (d.lookup "name").isSome then d else d ++ [("name", Val.vStr k)]) = (st, 0) := by
      unfold create_item
      rw [ho]
    rw [processDict_cons, hci]
    dsimp only
    rw [ih st (fun p hp => h p (List.mem_cons_of_mem _ hp))]
    rfl

theorem processList_cons_none {st : Remote} {ep : String} {d : Attrs}
    {rest : List Attrs} (h : d.lookup "name" = none) :
    processList st ep (d :: rest) = processList st ep rest := by
  simp only [processList, h]

theorem processList_cons_some {st : Remote} {ep : String} {d : Attrs}
    {rest : List Attrs} {nm : Val} (h : d.lookup "name" = some nm) :
    processList st ep (d :: rest)
      = ((processList (create_item st ep nm d).1 ep rest).1,
         (create_item st ep nm d).2 + (processList (create_item st ep nm d).1 ep rest).2) := by
  simp only [processList, h]

theorem processList_objs (ep : String) (items : List Attrs) :
    ∀ st : Remote, ∃ tail, (processList st ep items).1.objs = st.objs ++ tail := by
  induction items with
  | nil => intro st; exact ⟨[], by simp [processList]⟩
  | cons d rest ih =>
    intro st
    cases hn : d.lookup "name" with
    | none => rw [processList_cons_none hn]; exact ih st
    | some nm =>
      obtain ⟨t1, h1⟩ := create_item_objs st ep nm d
      obtain ⟨t2, h2⟩ := ih (create_item st ep nm d).1
      refine ⟨t1 ++ t2, ?_⟩
      rw [processList_cons_some hn]
      dsimp only
      rw [h2, h1, List.append_assoc]

theorem processList_present (ep : String) (items : List Attrs) :
    ∀ st : Remote, ∀ d ∈ items, ∀ nm : Val, d.lookup "name" = some nm →
      (lookupByAttr (processList st ep items).1 ep "name" nm).isSome = true := by
  induction items with
  | nil => intro st d hd; cases hd
  | cons q rest ih =>
    intro st d hd nm hnm
    cases hd with
    | head =>
      rw [processList_cons_some hnm]
      dsimp only
      refine lookupByAttr_mono (processList_objs ep rest _) ?_
      exact create_item_present hnm
    | tail _ hmem =>
      cases hq : q.lookup "name" with
      | none => rw [processList_cons_none hq]; exact ih st d hmem nm hnm
      | some nq =>
        rw [processList_cons_some hq]
        dsimp only
        exact ih _ d hmem nm hnm

theorem processList_noop (ep : String) (items : List Attrs) :
    ∀ st : Remote,
      (∀ d ∈ items, ∀ nm : Val, d.lookup "name" = some nm →
        (lookupByAttr st ep "name" nm).isSome = true) →
      processList st ep items = (st, 0) := by
  induction items with
  | nil => intro st _; rfl
  | cons q rest ih =>
    intro st h
    cases hq : q.lookup "name" with
    | none =>
      rw [processList_cons_none hq]
      exact ih st (fun d hd => h d (List.mem_cons_of_mem _ hd))
    | some nq =>
      obtain ⟨o, ho⟩ := Option.isSome_iff_exists.mp (h q (List.mem_cons_self _ _) nq hq)
      have hci : create_item st ep nq q = (st, 0) := by
        unfold create_item
        rw [ho]
      rw [processList_cons_some hq, hci]
      dsimp only
      rw [ih st (fun d hd => h d (List.mem_cons_of_mem _ hd))]
      rfl

/-- C2 counterexample: a declared dict record whose mapping key "A" differs
from its explicit name attribute "B" is looked up by the key but created with
the other name, so the second identical run finds nothing again, submits one
more create, and the remote identifier set grows from one object to two. -/
theorem process_entity_not_idempotent_on_name_mismatch :
    (process_entity (process_entity Remote.empty "sites"
        (DocData.dict [("A", [("name", Val.vStr "B")])])).1 "sites"
        (DocData.dict [("A", [("name", Val.vStr "B")])])).2 = 1 ∧
    (process_entity (process_entity Remote.empty "sites"
        (DocData.dict [("A", [("name", Val.vStr "B")])])).1 "sites"
        (DocData.dict [("A", [("name", Val.vStr "B")])])).1.objs.length = 2 := by
  decide

/-- C2 amended: per-record get-or-create is idempotent provided every
dict-declared record either has no explicit name attribute or its name
attribute equals its mapping key (list-declared records are unconstrained):
under that proviso a second run of `_process_entity` on the same document
against the consistent remote produced by the first run performs zero create
calls and leaves the remote identifier set unchanged. -/
theorem process_entity_second_run_idempotent (entity : String) (data : DocData)
    (st : Remote) (h : goodDoc data) :
    process_entity (process_entity st entity data).1 entity data
      = ((process_entity st entity data).1, 0) := by
  unfold process_entity
  cases he : init_get_endpoint entity with
  | none => rfl
  | some ep =>
    cases data with
    | dict items =>
      dsimp only
      exact processDict_noop ep items _ (fun p hp => processDict_present ep items st h p hp)
    | list items =>
      dsimp only
      exact processList_noop ep items _
        (fun d hd nm hnm => processList_present ep items st d hd nm hnm)

/-- Witness for the amended C2 at a one-record sites document. -/
theorem process_entity_second_run_idempotent_witness :
    process_entity (process_entity Remote.empty "sites"
        (DocData.dict [("S1", [("slug", Val.vStr "s1")])])).1 "sites"
        (DocData.dict [("S1", [("slug", Val.vStr "s1")])])
      = ((process_entity Remote.empty "sites"
          (DocData.dict [("S1", [("slug", Val.vStr "s1")])])).1, 0) :=
  process_entity_second_run_idempotent "sites"
    (DocData.dict [("S1", [("slug", Val.vStr "s1")])]) Remote.empty
    (by
      intro p hp
      rw [List.mem_singleton] at hp
      subst hp
      left
      rfl)
